import Mathlib

/-!
Shallow embedding of the pellerServer backend (src/server.js): member
registration, payment-link issuance, client-side payment verification,
and the gateway webhook, together with the theorems that settle the
frozen claims about this code.

Conventions of the embedding:
* the MySQL `users` table is a `List Member`; `SELECT ... WHERE` is
  `List.filter` / `List.find?` in row order, `UPDATE ... WHERE id = ?`
  is a map over the list;
* fallible externals (gateway HTTP calls, DB round trips) are passed in
  as explicit data: a gateway reply is an `Option` of its parsed JSON
  shape (`none` = transport error, i.e. the `catch` branch), DB success
  is a `Bool` flag per query;
* JavaScript request-body values are modelled by `JsValue` with JS
  truthiness; machine numbers carried by the payment flow are exact
  rationals (the amounts the code manipulates are integers and
  integers divided by 100, on which JS arithmetic is exact);
* the HMAC primitive from the `crypto` library is an external
  collaborator and is passed in as an abstract function
  `hmac : secret -> body -> hex digest`.
-/

namespace PellerServer

/-- A JavaScript request-body value, as far as this server inspects one. -/
inductive JsValue where
  | num (q : ℚ)
  | str (s : String)
  | nullv
  | boolean (b : Bool)
deriving DecidableEq

/-- JS truthiness of a `JsValue` (`!v` in the source is `¬ v.truthy`). -/
def JsValue.truthy : JsValue → Bool
  | .num q => decide (q ≠ 0)
  | .str s => decide (s ≠ "")
  | .nullv => false
  | .boolean b => b

/-- JS string interpolation of a value into a template literal.
Faithful for the values this server actually interpolates (integer ids
and strings). -/
def JsValue.render : JsValue → String
  | .num q => toString q
  | .str s => s
  | .nullv => "null"
  | .boolean b => toString b

/-- Truthiness of an optional string field (`undefined` and `""` are falsy). -/
def strTruthy : Option String → Bool
  | none => false
  | some s => decide (s ≠ "")

/-- One row of the `users` table.  `none` in an `Option` column is SQL
`NULL` / an absent value.  `email`, `isActive` are populated externally
(registration never writes them); `isPaid` is the reconciler flag. -/
structure Member where
  id : Nat
  nickname : Option String := none
  tiktokHandle : Option String := none
  fanSince : Option String := none
  badge : Option String := none
  nationality : Option String := none
  imagePath : Option String := none
  email : Option String := none
  amount : Option ℚ := none
  isActive : Bool := false
  isPaid : Bool := false
deriving DecidableEq

/-- `SELECT ... FROM users WHERE id = ?` followed by `rows[0]`:
the first row with the given id, in table order. -/
def getUser (store : List Member) (i : Nat) : Option Member :=
  store.find? (fun m => decide (m.id = i))

/-- The row transformation of `UPDATE users SET isPaid = 1 WHERE id = ?`. -/
def payUpd (j : Nat) (m : Member) : Member :=
  if m.id = j then { m with isPaid := true } else m

/-- `UPDATE users SET isPaid = 1 WHERE id = ?` over the whole table. -/
def setPaidById (store : List Member) (j : Nat) : List Member :=
  store.map (payUpd j)

/-! ### POST /submit-form -/

/-- The multipart form body of `POST /submit-form`; `none` = field absent. -/
structure SubmitReq where
  nickname : Option String := none
  tiktokHandle : Option String := none
  fanSince : Option String := none
  badge : Option String := none
  nationality : Option String := none
  imagePath : Option String := none
deriving DecidableEq

/-- Accumulating base-10 parse of a character list; `none` when a
non-digit appears. -/
def digitsToNat : List Char → Nat → Option Nat
  | [], acc => some acc
  | c :: t, acc =>
    if 48 ≤ c.toNat ∧ c.toNat ≤ 57 then digitsToNat t (acc * 10 + (c.toNat - 48))
    else none

/-- `parseInt(badge, 10)`, modelled for decimal-digit strings; `none`
stands for `NaN` (absent field, empty or non-numeric input). -/
def jsParseInt : Option String → Option ℚ
  | none => none
  | some s =>
    match s.data with
    | [] => none
    | cs => (digitsToNat cs 0).map (fun n => (n : ℚ))

/-- The responses `POST /submit-form` can produce. -/
inductive SubmitResp where
  | missing
  | created (userId : Nat)
  | storeError
deriving DecidableEq

/-- HTTP status of each `POST /submit-form` response. -/
def submitStatus : SubmitResp → Nat
  | .missing => 400
  | .created _ => 201
  | .storeError => 500

/-- The row the `INSERT INTO users ...` of `/submit-form` creates.
`email` and `isActive` are not columns of that INSERT; `isPaid` starts
false (modelled from the spec: the column default, initially false). -/
def insertedMember (req : SubmitReq) (newId : Nat) : Member :=
  { id := newId
    nickname := req.nickname
    tiktokHandle := req.tiktokHandle
    fanSince := req.fanSince
    badge := req.badge
    nationality := req.nationality
    imagePath := req.imagePath
    amount := jsParseInt req.badge }

/-- `POST /submit-form`: the required-field guard is
`!nickname || !tiktokHandle || !badge || !nationality` (note: the
source does not check `fanSince`); on pass, INSERT and 201, or 500 if
the store fails. -/
def submitForm (req : SubmitReq) (insertOk : Bool) (newId : Nat)
    (store : List Member) : SubmitResp × List Member :=
  if ¬ (strTruthy req.nickname && strTruthy req.tiktokHandle &&
        strTruthy req.badge && strTruthy req.nationality) then
    (.missing, store)
  else if insertOk then
    (.created newId, store ++ [insertedMember req newId])
  else
    (.storeError, store)

/-! ### POST /generate-payment-link -/

/-- The JSON body sent to the gateway session-initialization endpoint. -/
structure PaymentData where
  email : String
  amount : Option ℚ
  currency : String
  callback_url : String
  reference : String
deriving DecidableEq

/-- The template literal for the transaction reference:
`PellerNation-<userId>-<Date.now()>`. -/
def mkPaymentReference (userId : String) (now : Nat) : String :=
  "PellerNation-" ++ userId ++ "-" ++ Nat.repr now

/-- JS `amount * 100` on a request-body value; `none` stands for `NaN`
(the arithmetic on non-numeric values is outside this model, and the
handlers below only ever reach it with numeric amounts). -/
def jsTimes100 : JsValue → Option ℚ
  | .num q => some (q * 100)
  | _ => none

/-- The `paymentData` object built by `/generate-payment-link`. -/
def mkPaymentData (userId amount : JsValue) (callbackBase : String)
    (now : Nat) : PaymentData :=
  { email := "user@example.com"
    amount := jsTimes100 amount
    currency := "NGN"
    callback_url := callbackBase ++ "?userId=" ++ userId.render
    reference := mkPaymentReference userId.render now }

/-- The parsed gateway reply to the session-initialization call:
`response.ok`, the top-level `status` field, `data.authorization_url`
and `message`. -/
structure GwInitResult where
  ok : Bool
  status : Bool
  authUrl : Option String := none
  message : Option String := none
deriving DecidableEq

/-- The responses `POST /generate-payment-link` can produce. -/
inductive GenLinkResp where
  | missing
  | link (url : String)
  | failed (details : Option String)
  | apiError
deriving DecidableEq

/-- HTTP status of each `POST /generate-payment-link` response. -/
def genLinkStatus : GenLinkResp → Nat
  | .missing => 400
  | .link _ => 200
  | .failed _ => 500
  | .apiError => 500

/-- `POST /generate-payment-link`.  The second component is the
`paymentData` sent to the gateway (`none` = the gateway was never
called).  `gw = none` models a transport error (the `catch` branch). -/
def generatePaymentLink (userId amount : JsValue) (callbackBase : String)
    (now : Nat) (gw : Option GwInitResult) : GenLinkResp × Option PaymentData :=
  if ¬ (userId.truthy && amount.truthy) then
    (.missing, none)
  else
    let pd := mkPaymentData userId amount callbackBase now
    match gw with
    | none => (.apiError, some pd)
    | some r =>
      if r.ok && r.status && strTruthy r.authUrl then
        (.link (r.authUrl.getD ""), some pd)
      else
        (.failed r.message, some pd)

/-! ### POST /verify-payment -/

/-- The parsed gateway reply to `GET /transaction/verify/<reference>`:
the top-level `status` field and `data.status`. -/
structure GatewayVerifyResult where
  status : Bool
  dataStatus : String
deriving DecidableEq

/-- The responses `POST /verify-payment` can produce. -/
inductive VerifyResp where
  | missingFields
  | queryError
  | notFound
  | inactive
  | updateError
  | success
  | verificationFailed
  | gatewayError
deriving DecidableEq

/-- HTTP status of each `POST /verify-payment` response. -/
def verifyStatus : VerifyResp → Nat
  | .missingFields => 400
  | .queryError => 500
  | .notFound => 404
  | .inactive => 400
  | .updateError => 500
  | .success => 200
  | .verificationFailed => 400
  | .gatewayError => 500

/-- `POST /verify-payment`.  `gw = none` models a thrown gateway call
(the `catch` branch); `queryOk` / `updateOk` are the outcomes of the
two DB round trips. -/
def verifyPayment (gw : Option GatewayVerifyResult) (reference : Option String)
    (userId : Option Nat) (queryOk updateOk : Bool)
    (store : List Member) : VerifyResp × List Member :=
  match reference, userId with
  | some r, some uid =>
    if r = "" ∨ uid = 0 then (.missingFields, store)
    else
      match gw with
      | none => (.gatewayError, store)
      | some res =>
        if res.status && decide (res.dataStatus = "success") then
          if ¬ queryOk then (.queryError, store)
          else
            match getUser store uid with
            | none => (.notFound, store)
            | some u =>
              if ¬ u.isActive then (.inactive, store)
              else if ¬ updateOk then (.updateError, store)
              else (.success, setPaidById store uid)
        else (.verificationFailed, store)
  | _, _ => (.missingFields, store)

/-! ### POST /webhook -/

/-- `verifyPaystackSignature(signature, body)` from the source: the hex
HMAC-SHA-512 of the body under the secret, compared with `===` to the
supplied header value (`none` = header absent, which compares unequal
to any computed digest).  The HMAC primitive itself is the `crypto`
library, passed in abstractly as `hmac`. -/
def verifyPaystackSignature (hmac : String → String → String)
    (secretKey : String) (signature : Option String) (body : String) : Bool :=
  decide (some (hmac secretKey body) = signature)

/-- `event.data.customer` of a webhook event. -/
structure WebhookCustomer where
  email : String
deriving DecidableEq

/-- `event.data` of a webhook event. -/
structure WebhookData where
  reference : String
  amount : ℚ
  customer : WebhookCustomer
deriving DecidableEq

/-- A parsed webhook event body. -/
structure WebhookEvent where
  event : String
  data : WebhookData
deriving DecidableEq

/-- `amount / 100` — the kobo-to-NGN conversion in the webhook handler. -/
def koboToBase (m : ℚ) : ℚ := m / 100

/-- `SELECT id, isPaid, isActive FROM users WHERE email = ? AND amount = ?`
in table order. -/
def webhookMatches (store : List Member) (email : String) (amountPaid : ℚ) :
    List Member :=
  store.filter (fun m => decide (m.email = some email) &&
    decide (m.amount = some amountPaid))

/-- The responses `POST /webhook` can produce. -/
inductive WebhookResp where
  | invalidSignature
  | inactive
  | confirmed
  | alreadyPaid
  | notFoundUser
  | dbError
  | received
deriving DecidableEq

/-- HTTP status of each `POST /webhook` response. -/
def webhookStatus : WebhookResp → Nat
  | .invalidSignature => 400
  | .inactive => 400
  | .confirmed => 200
  | .alreadyPaid => 400
  | .notFoundUser => 404
  | .dbError => 500
  | .received => 200

/-- `POST /webhook`.  `rawBody` is `JSON.stringify(req.body)` as fed to
the signature check; `execOk` / `updateOk` are the outcomes of the two
DB round trips (a false flag is the caught `await` failure). -/
def handleWebhook (hmac : String → String → String) (secretKey : String)
    (signature : Option String) (rawBody : String) (event : WebhookEvent)
    (execOk updateOk : Bool) (store : List Member) : WebhookResp × List Member :=
  if ¬ verifyPaystackSignature hmac secretKey signature rawBody then
    (.invalidSignature, store)
  else if event.event = "charge.success" then
    let amountPaid := koboToBase event.data.amount
    let email := event.data.customer.email
    if ¬ execOk then (.dbError, store)
    else
      match webhookMatches store email amountPaid with
      | [] => (.notFoundUser, store)
      | u0 :: _ =>
        if ¬ u0.isActive then (.inactive, store)
        else if u0.isPaid = false then
          if ¬ updateOk then (.dbError, store)
          else (.confirmed, setPaidById store u0.id)
        else (.alreadyPaid, store)
  else (.received, store)

/-! ### GET /member-details -/

/-- The responses `GET /member-details` can produce. -/
inductive DetailsResp where
  | missingId
  | serverError
  | notFoundUser
  | record (m : Member)
deriving DecidableEq

/-- HTTP status of each `GET /member-details` response. -/
def detailsStatus : DetailsResp → Nat
  | .missingId => 400
  | .serverError => 500
  | .notFoundUser => 404
  | .record _ => 200

/-- `GET /member-details?userId=`: a read-only lookup. -/
def memberDetails (userId : Option Nat) (queryOk : Bool)
    (store : List Member) : DetailsResp × List Member :=
  match userId with
  | none => (.missingId, store)
  | some i =>
    if ¬ queryOk then (.serverError, store)
    else
      match getUser store i with
      | none => (.notFoundUser, store)
      | some m => (.record m, store)

/-! ### The operations of the system as store transitions -/

/-- One incoming request, with the external outcomes (gateway replies,
DB success flags) it observed. -/
inductive Action where
  | submit (req : SubmitReq) (insertOk : Bool) (newId : Nat)
  | genLink (userId amount : JsValue) (callbackBase : String) (now : Nat)
      (gw : Option GwInitResult)
  | verify (gw : Option GatewayVerifyResult) (reference : Option String)
      (userId : Option Nat) (queryOk updateOk : Bool)
  | webhook (signature : Option String) (rawBody : String)
      (event : WebhookEvent) (execOk updateOk : Bool)
  | details (userId : Option Nat) (queryOk : Bool)

/-- Whether an action is one of the two payment-confirmation paths. -/
def Action.isReconcile : Action → Bool
  | .verify _ _ _ _ _ => true
  | .webhook _ _ _ _ _ => true
  | _ => false

/-- The store after handling one request. -/
def applyAction (hmac : String → String → String) (secret : String)
    (store : List Member) : Action → List Member
  | .submit req ok newId => (submitForm req ok newId store).2
  | .genLink _ _ _ _ _ => store
  | .verify gw r u qok uok => (verifyPayment gw r u qok uok store).2
  | .webhook sig body ev eok uok =>
      (handleWebhook hmac secret sig body ev eok uok store).2
  | .details _ _ => store

/-- The store after handling a sequence of requests, in order. -/
def runActions (hmac : String → String → String) (secret : String) :
    List Action → List Member → List Member
  | [], store => store
  | a :: rest, store => runActions hmac secret rest (applyAction hmac secret store a)

/-! ### Decimal decoding, for the uniqueness of payment references -/

/-- Numeric value of a decimal digit character. -/
def charVal (c : Char) : Nat := c.toNat - 48

/-- Decode a big-endian list of decimal digit characters. -/
def decodeDigits (cs : List Char) : Nat :=
  cs.foldl (fun a c => a * 10 + charVal c) 0

/-! ### Store lemmas -/

lemma payUpd_id (j : Nat) (m : Member) : (payUpd j m).id = m.id := by
  unfold payUpd; split <;> rfl

lemma payUpd_isActive (j : Nat) (m : Member) :
    (payUpd j m).isActive = m.isActive := by
  unfold payUpd; split <;> rfl

lemma payUpd_isPaid_of_true {j : Nat} {m : Member} (h : m.isPaid = true) :
    (payUpd j m).isPaid = true := by
  unfold payUpd; split <;> simp [h]

lemma payUpd_of_ne {j : Nat} {m : Member} (h : m.id ≠ j) : payUpd j m = m := by
  unfold payUpd
  simp [h]

lemma getUser_setPaidById (store : List Member) (i j : Nat) :
    getUser (setPaidById store j) i = (getUser store i).map (payUpd j) := by
  unfold getUser setPaidById
  rw [List.find?_map]
  have hp : ((fun m => decide (m.id = i)) ∘ payUpd j) =
      (fun m : Member => decide (m.id = i)) := by
    funext m
    simp [Function.comp, payUpd_id]
  rw [hp]

lemma getUser_id {store : List Member} {i : Nat} {m : Member}
    (h : getUser store i = some m) : m.id = i := by
  have := List.find?_some h
  simpa using this

lemma getUser_mem {store : List Member} {i : Nat} {m : Member}
    (h : getUser store i = some m) : m ∈ store :=
  List.mem_of_find?_eq_some h

lemma getUser_of_nodup_mem {store : List Member} {m : Member}
    (hnd : (store.map Member.id).Nodup) (hm : m ∈ store) :
    getUser store m.id = some m := by
  induction store with
  | nil => cases hm
  | cons a t ih =>
    rcases List.mem_cons.mp hm with rfl | hmt
    · simp [getUser]
    · have hne : a.id ≠ m.id := by
        intro he
        have : m.id ∈ t.map Member.id := List.mem_map_of_mem Member.id hmt
        simp only [List.map_cons, List.nodup_cons] at hnd
        exact hnd.1 (he ▸ this)
      have := ih (by simp only [List.map_cons, List.nodup_cons] at hnd; exact hnd.2) hmt
      simpa [getUser, List.find?_cons, hne] using this

lemma getUser_append_left {store : List Member} {i : Nat} {m : Member}
    (l : List Member) (h : getUser store i = some m) :
    getUser (store ++ l) i = some m := by
  unfold getUser at h ⊢
  rw [List.find?_append, h]
  rfl

lemma map_id_setPaidById (store : List Member) (j : Nat) :
    (setPaidById store j).map Member.id = store.map Member.id := by
  unfold setPaidById
  rw [List.map_map]
  congr 1
  funext m
  exact payUpd_id j m

/-- An update to a member that is active cannot disturb the record of a
member that is inactive (they are different rows). -/
lemma getUser_frozen {store : List Member} {i j : Nat} {m u : Member}
    (hf : getUser store i = some m) (hin : m.isActive = false)
    (hj : getUser store j = some u) (hact : u.isActive = true) :
    getUser (setPaidById store j) i = some m := by
  have hij : i ≠ j := by
    intro he
    rw [he, hj] at hf
    cases hf
    rw [hact] at hin
    cases hin
  rw [getUser_setPaidById, hf]
  have : m.id ≠ j := by
    rw [getUser_id hf]
    exact hij
  simp [payUpd_of_ne this]

/-! ### Decimal-representation lemmas (uniqueness of references) -/

lemma decodeDigits_append_one (l : List Char) (c : Char) :
    decodeDigits (l ++ [c]) = 10 * decodeDigits l + charVal c := by
  unfold decodeDigits
  rw [List.foldl_append]
  simp [List.foldl_cons]
  ring

lemma toDigitsCore_append (b : Nat) :
    ∀ (f n : Nat) (acc : List Char),
      Nat.toDigitsCore b f n acc = Nat.toDigitsCore b f n [] ++ acc := by
  intro f
  induction f with
  | zero => intro n acc; simp [Nat.toDigitsCore]
  | succ f ih =>
    intro n acc
    simp only [Nat.toDigitsCore]
    split
    · rfl
    · rw [ih (n / b) [Nat.digitChar (n % b)], ih (n / b) (Nat.digitChar (n % b) :: acc),
        List.append_assoc]
      rfl

lemma charVal_digitChar (d : Nat) (h : d < 10) :
    charVal (Nat.digitChar d) = d := by
  interval_cases d <;> rfl

lemma decode_toDigitsCore :
    ∀ (f n : Nat), n < f → decodeDigits (Nat.toDigitsCore 10 f n []) = n := by
  intro f
  induction f with
  | zero => intro n h; omega
  | succ f ih =>
    intro n h
    simp only [Nat.toDigitsCore]
    split
    · rename_i hdiv
      have hn : n < 10 := by omega
      have hmod : n % 10 = n := Nat.mod_eq_of_lt hn
      simp [decodeDigits, hmod, charVal_digitChar n hn]
    · rename_i hdiv
      rw [toDigitsCore_append, decodeDigits_append_one,
        ih (n / 10) (by omega),
        charVal_digitChar (n % 10) (Nat.mod_lt n (by omega))]
      omega

lemma decode_repr (n : Nat) : decodeDigits (Nat.toDigits 10 n) = n := by
  unfold Nat.toDigits
  exact decode_toDigitsCore (n + 1) n (Nat.lt_succ_self n)

lemma natRepr_injective {m n : Nat} (h : Nat.repr m = Nat.repr n) : m = n := by
  unfold Nat.repr at h
  have hdata : Nat.toDigits 10 m = Nat.toDigits 10 n := congrArg String.data h
  calc m = decodeDigits (Nat.toDigits 10 m) := (decode_repr m).symm
    _ = decodeDigits (Nat.toDigits 10 n) := by rw [hdata]
    _ = n := decode_repr n

lemma mkPaymentReference_right_inj {u : String} {t1 t2 : Nat}
    (h : mkPaymentReference u t1 = mkPaymentReference u t2) : t1 = t2 := by
  unfold mkPaymentReference at h
  have h2 : ("PellerNation-" ++ u ++ "-").data ++ (Nat.repr t1).data =
      ("PellerNation-" ++ u ++ "-").data ++ (Nat.repr t2).data := by
    have := congrArg String.data h
    simpa [String.data_append, List.append_assoc] using this
  have h3 : (Nat.repr t1).data = (Nat.repr t2).data := List.append_cancel_left h2
  exact natRepr_injective (String.ext h3)

/-! ### What each handler can do to the store -/

/-- The store side of `/submit-form`: unchanged, or one appended row. -/
lemma submitForm_snd (req : SubmitReq) (insertOk : Bool) (newId : Nat)
    (store : List Member) :
    (submitForm req insertOk newId store).2 = store ∨
    (submitForm req insertOk newId store).2 = store ++ [insertedMember req newId] := by
  unfold submitForm
  split
  · exact Or.inl rfl
  · split
    · exact Or.inr rfl
    · exact Or.inl rfl

/-- The store side of `/verify-payment`: unchanged, or `isPaid := true`
on the id of a row the handler saw as active. -/
lemma verifyPayment_snd (gw : Option GatewayVerifyResult)
    (reference : Option String) (userId : Option Nat) (queryOk updateOk : Bool)
    (store : List Member) :
    (verifyPayment gw reference userId queryOk updateOk store).2 = store ∨
    ∃ (n : Nat) (u : Member), userId = some n ∧ getUser store n = some u ∧
      u.isActive = true ∧
      (verifyPayment gw reference userId queryOk updateOk store).2 =
        setPaidById store n := by
  unfold verifyPayment
  rcases reference with _ | r <;> rcases userId with _ | uid
  · exact Or.inl rfl
  · exact Or.inl rfl
  · exact Or.inl rfl
  · dsimp only
    split
    · exact Or.inl rfl
    · rcases gw with _ | res
      · exact Or.inl rfl
      · dsimp only
        split
        · split
          · exact Or.inl rfl
          · rcases hgu : getUser store uid with _ | u
            · exact Or.inl rfl
            · dsimp only
              split
              · exact Or.inl rfl
              · split
                · exact Or.inl rfl
                · rename_i hact _
                  refine Or.inr ⟨uid, u, rfl, hgu, ?_, rfl⟩
                  simpa using hact
        · exact Or.inl rfl

/-- The store side of `/webhook`: unchanged, or `isPaid := true` on the
id of the first email-and-amount match, which the handler saw as active
and unpaid. -/
lemma handleWebhook_snd (hmac : String → String → String) (secret : String)
    (sig : Option String) (body : String) (ev : WebhookEvent)
    (execOk updateOk : Bool) (store : List Member) :
    (handleWebhook hmac secret sig body ev execOk updateOk store).2 = store ∨
    ∃ (u0 : Member) (rest : List Member),
      webhookMatches store ev.data.customer.email (koboToBase ev.data.amount) =
        u0 :: rest ∧
      u0.isActive = true ∧ u0.isPaid = false ∧
      (handleWebhook hmac secret sig body ev execOk updateOk store).2 =
        setPaidById store u0.id := by
  unfold handleWebhook
  split
  · exact Or.inl rfl
  · split
    · dsimp only
      split
      · exact Or.inl rfl
      · rcases hm : webhookMatches store ev.data.customer.email
          (koboToBase ev.data.amount) with _ | ⟨u0, rest⟩
        · exact Or.inl rfl
        · dsimp only
          split
          · exact Or.inl rfl
          · split
            · split
              · exact Or.inl rfl
              · rename_i hact hpaid _
                refine Or.inr ⟨u0, rest, rfl, ?_, ?_, rfl⟩
                · simpa using hact
                · assumption
            · exact Or.inl rfl
    · exact Or.inl rfl

/-- Everything a single request can do to the store: leave it alone,
mark one id paid, or append one row. -/
lemma applyAction_shape (hmac : String → String → String) (secret : String)
    (store : List Member) (a : Action) :
    applyAction hmac secret store a = store ∨
    (∃ j, applyAction hmac secret store a = setPaidById store j) ∨
    (∃ x, applyAction hmac secret store a = store ++ [x]) := by
  cases a with
  | submit req ok newId =>
    rcases submitForm_snd req ok newId store with h | h
    · exact Or.inl h
    · exact Or.inr (Or.inr ⟨_, h⟩)
  | genLink u amt cb now gw => exact Or.inl rfl
  | verify gw r u qok uok =>
    rcases verifyPayment_snd gw r u qok uok store with h | ⟨n, m, _, _, _, h⟩
    · exact Or.inl h
    · exact Or.inr (Or.inl ⟨n, h⟩)
  | webhook sig body ev eok uok =>
    rcases handleWebhook_snd hmac secret sig body ev eok uok store with
      h | ⟨u0, rest, _, _, _, h⟩
    · exact Or.inl h
    · exact Or.inr (Or.inl ⟨u0.id, h⟩)
  | details u q => exact Or.inl rfl

/-! ### Step lemmas for the two global invariants -/

/-- One request keeps a paid member paid (monotonicity, single step). -/
lemma step_mono (hmac : String → String → String) (secret : String)
    (a : Action) (store : List Member) (i : Nat) (m : Member)
    (hf : getUser store i = some m) (hp : m.isPaid = true) :
    ∃ m2, getUser (applyAction hmac secret store a) i = some m2 ∧
      m2.isPaid = true := by
  rcases applyAction_shape hmac secret store a with h | ⟨j, h⟩ | ⟨x, h⟩
  · exact ⟨m, by rw [h, hf], hp⟩
  · refine ⟨payUpd j m, ?_, payUpd_isPaid_of_true hp⟩
    rw [h, getUser_setPaidById, hf]
    rfl
  · exact ⟨m, by rw [h]; exact getUser_append_left [x] hf, hp⟩

/-- Any request sequence keeps a paid member paid. -/
lemma runActions_mono (hmac : String → String → String) (secret : String)
    (acts : List Action) (store : List Member) (i : Nat) (m : Member)
    (hf : getUser store i = some m) (hp : m.isPaid = true) :
    ∃ m2, getUser (runActions hmac secret acts store) i = some m2 ∧
      m2.isPaid = true := by
  induction acts generalizing store m with
  | nil => exact ⟨m, hf, hp⟩
  | cons a rest ih =>
    obtain ⟨m2, hf2, hp2⟩ := step_mono hmac secret a store i m hf hp
    exact ih (applyAction hmac secret store a) m2 hf2 hp2

/-- A reconciliation request (either confirmation path) leaves the
record of an inactive member untouched, given unique row ids. -/
lemma step_frozen (hmac : String → String → String) (secret : String)
    (a : Action) (ha : a.isReconcile = true) (store : List Member)
    (hnd : (store.map Member.id).Nodup) (i : Nat) (m : Member)
    (hf : getUser store i = some m) (hin : m.isActive = false) :
    getUser (applyAction hmac secret store a) i = some m := by
  cases a with
  | submit req ok newId => cases ha
  | genLink u amt cb now gw => cases ha
  | details u q => cases ha
  | verify gw r u qok uok =>
    rcases verifyPayment_snd gw r u qok uok store with h | ⟨n, un, _, hgu, hact, h⟩
    · simp only [applyAction]
      rw [h, hf]
    · simp only [applyAction]
      rw [h]
      exact getUser_frozen hf hin hgu hact
  | webhook sig body ev eok uok =>
    rcases handleWebhook_snd hmac secret sig body ev eok uok store with
      h | ⟨u0, rest, hm, hact, hup, h⟩
    · simp only [applyAction]
      rw [h, hf]
    · simp only [applyAction]
      rw [h]
      have hu0 : u0 ∈ store := by
        have : u0 ∈ webhookMatches store ev.data.customer.email
            (koboToBase ev.data.amount) := by
          rw [hm]
          exact List.mem_cons_self u0 rest
        exact List.mem_of_mem_filter this
      exact getUser_frozen hf hin (getUser_of_nodup_mem hnd hu0) hact

/-- A reconciliation request never changes the set of row ids. -/
lemma step_reconcile_ids (hmac : String → String → String) (secret : String)
    (a : Action) (ha : a.isReconcile = true) (store : List Member) :
    (applyAction hmac secret store a).map Member.id = store.map Member.id := by
  cases a with
  | submit req ok newId => cases ha
  | genLink u amt cb now gw => cases ha
  | details u q => cases ha
  | verify gw r u qok uok =>
    rcases verifyPayment_snd gw r u qok uok store with h | ⟨n, un, _, _, _, h⟩
    · simp only [applyAction]; rw [h]
    · simp only [applyAction]; rw [h]; exact map_id_setPaidById store n
  | webhook sig body ev eok uok =>
    rcases handleWebhook_snd hmac secret sig body ev eok uok store with
      h | ⟨u0, rest, _, _, _, h⟩
    · simp only [applyAction]; rw [h]
    · simp only [applyAction]; rw [h]; exact map_id_setPaidById store u0.id

/-- Any sequence of reconciliation requests leaves the record of an
inactive member exactly as it was. -/
lemma runActions_frozen (hmac : String → String → String) (secret : String)
    (acts : List Action) (hacts : ∀ a ∈ acts, a.isReconcile = true)
    (store : List Member) (hnd : (store.map Member.id).Nodup)
    (i : Nat) (m : Member)
    (hf : getUser store i = some m) (hin : m.isActive = false) :
    getUser (runActions hmac secret acts store) i = some m := by
  induction acts generalizing store with
  | nil => exact hf
  | cons a rest ih =>
    have ha : a.isReconcile = true := hacts a (List.mem_cons_self a rest)
    have hrest : ∀ b ∈ rest, b.isReconcile = true := fun b hb =>
      hacts b (List.mem_cons_of_mem a hb)
    refine ih hrest (applyAction hmac secret store a) ?_ ?_
    · rw [step_reconcile_ids hmac secret a ha store]
      exact hnd
    · exact step_frozen hmac secret a ha store hnd i m hf hin

/-! ### Claim theorems -/

/-- Claim C6: the signature verifier returns true exactly when the
supplied header value equals the hex HMAC-SHA-512 digest of the request
body under the shared secret.  It is a pure total Bool-valued function,
so it has no side effects and cannot throw; a missing header or any
body whose digest differs from the supplied string yields false by the
same equivalence. -/
theorem c6_signature_verifier_iff (hmac : String → String → String)
    (secretKey : String) (signature : Option String) (body : String) :
    verifyPaystackSignature hmac secretKey signature body = true ↔
      signature = some (hmac secretKey body) := by
  unfold verifyPaystackSignature
  simp [eq_comm]

/-- Claim C4: when the gateway replies but reports the transaction
status as anything but "success", verify-payment answers 400
VerificationFailed and the member store is unchanged, whatever the
top-level status flag and the DB outcomes are. -/
theorem c4_verification_failed_no_change (res : GatewayVerifyResult)
    (hst : res.dataStatus ≠ "success") (r : String) (uid : Nat)
    (hr : r ≠ "") (huid : uid ≠ 0) (queryOk updateOk : Bool)
    (store : List Member) :
    verifyPayment (some res) (some r) (some uid) queryOk updateOk store =
      (.verificationFailed, store) ∧
    verifyStatus .verificationFailed = 400 := by
  refine ⟨?_, rfl⟩
  unfold verifyPayment
  simp [hr, huid, hst]

theorem c4_verification_failed_witness :
    verifyPayment (some ⟨true, "failed"⟩) (some "ref1") (some 1) true true
        [{ id := 1, isActive := true }] =
      (.verificationFailed, [{ id := 1, isActive := true }]) ∧
    verifyStatus .verificationFailed = 400 :=
  c4_verification_failed_no_change ⟨true, "failed"⟩ (by decide) "ref1" 1
    (by decide) (by decide) true true [{ id := 1, isActive := true }]

/-- Claim C10: generate-payment-link treats falsy-but-present values as
missing: a zero or empty-string userId or amount draws the 400
missing-fields response and the gateway is never called (no payment
data is sent). -/
theorem c10_falsy_rejected (userId amount : JsValue)
    (h : userId = .num 0 ∨ userId = .str "" ∨
      amount = .num 0 ∨ amount = .str "")
    (callbackBase : String) (now : Nat) (gw : Option GwInitResult) :
    generatePaymentLink userId amount callbackBase now gw = (.missing, none) ∧
    genLinkStatus .missing = 400 := by
  refine ⟨?_, rfl⟩
  unfold generatePaymentLink
  rcases h with rfl | rfl | rfl | rfl <;> simp [JsValue.truthy]

theorem c10_falsy_rejected_witness :
    generatePaymentLink (.num 0) (.num 5000) "cb" 1 none = (.missing, none) ∧
    genLinkStatus .missing = 400 :=
  c10_falsy_rejected (.num 0) (.num 5000) (Or.inl rfl) "cb" 1 none

/-- Claim C8 counterexample: two link requests for the same member in
the same millisecond (`Date.now()` has millisecond resolution and can
repeat) build one and the same reference string, so references are not
distinct across all retries. -/
theorem c8_reference_counterexample :
    mkPaymentReference "7" 1700000000000 = mkPaymentReference "7" 1700000000000 ∧
    mkPaymentReference "7" 1700000000000 = "PellerNation-7-1700000000000" := by
  exact ⟨rfl, by decide⟩

/-- Claim C8 (amended): every reference is the concatenation of the
namespace tag, the member id and the millisecond timestamp, and two
references generated for the same member at distinct timestamps are
distinct strings; uniqueness across retries holds only under that
timestamp side condition, not unconditionally. -/
theorem c8_reference_structure (u : String) (t1 t2 : Nat) (h : t1 ≠ t2) :
    mkPaymentReference u t1 = "PellerNation-" ++ u ++ "-" ++ Nat.repr t1 ∧
    mkPaymentReference u t1 ≠ mkPaymentReference u t2 := by
  exact ⟨rfl, fun he => h (mkPaymentReference_right_inj he)⟩

theorem c8_reference_structure_witness :
    mkPaymentReference "7" 1000 = "PellerNation-" ++ "7" ++ "-" ++ Nat.repr 1000 ∧
    mkPaymentReference "7" 1000 ≠ mkPaymentReference "7" 1001 :=
  c8_reference_structure "7" 1000 1001 (by decide)

/-- Claim C1 counterexample: with a correctly signed successful-charge
event resolving to a member already marked paid (and active), the
handler does not answer HTTP 200 with an already-processed success: it
answers 400 with the already-marked-as-paid error. -/
theorem c1_already_paid_counterexample :
    (handleWebhook (fun s b => s ++ "." ++ b) "sk" (some "sk.body") "body"
      ⟨"charge.success", ⟨"r1", 500000, ⟨"fan@example.com"⟩⟩⟩ true true
      [{ id := 1, email := some "fan@example.com", amount := some 5000,
         isActive := true, isPaid := true }]).1 = .alreadyPaid ∧
    webhookStatus (handleWebhook (fun s b => s ++ "." ++ b) "sk"
      (some "sk.body") "body"
      ⟨"charge.success", ⟨"r1", 500000, ⟨"fan@example.com"⟩⟩⟩ true true
      [{ id := 1, email := some "fan@example.com", amount := some 5000,
         isActive := true, isPaid := true }]).1 = 400 := by
  have h : koboToBase 500000 = (5000 : ℚ) := by norm_num [koboToBase]
  refine ⟨?_, ?_⟩ <;>
    simp [handleWebhook, verifyPaystackSignature, webhookMatches, h, webhookStatus]

/-- Claim C1 (amended): a successful-charge delivery that resolves to a
member whose isPaid is already true answers HTTP 400 with the error
"User already marked as paid." (an error outcome, not a 200 success),
leaves every member record unchanged, and re-invoking the handler with
the same event returns the same response from the same end state, with
no duplicate write. -/
theorem c1_already_paid_replay (hmac : String → String → String)
    (secret : String) (sig : Option String) (body : String)
    (ev : WebhookEvent) (updateOk : Bool) (store : List Member)
    (u0 : Member) (rest : List Member)
    (hsig : verifyPaystackSignature hmac secret sig body = true)
    (hev : ev.event = "charge.success")
    (hm : webhookMatches store ev.data.customer.email
      (koboToBase ev.data.amount) = u0 :: rest)
    (hact : u0.isActive = true) (hpaid : u0.isPaid = true) :
    handleWebhook hmac secret sig body ev true updateOk store =
      (.alreadyPaid, store) ∧
    webhookStatus .alreadyPaid = 400 ∧
    handleWebhook hmac secret sig body ev true updateOk
        (handleWebhook hmac secret sig body ev true updateOk store).2 =
      (.alreadyPaid, store) := by
  have h1 : handleWebhook hmac secret sig body ev true updateOk store =
      (.alreadyPaid, store) := by
    unfold handleWebhook
    simp [hsig, hev, hm, hact, hpaid]
  refine ⟨h1, rfl, ?_⟩
  rw [h1]
  exact h1

theorem c1_already_paid_replay_witness :
    handleWebhook (fun s b => s ++ "." ++ b) "sk" (some "sk.body") "body"
      ⟨"charge.success", ⟨"r1", 500000, ⟨"fan@example.com"⟩⟩⟩ true true
      [{ id := 1, email := some "fan@example.com", amount := some 5000,
         isActive := true, isPaid := true }] =
      (.alreadyPaid,
       [{ id := 1, email := some "fan@example.com", amount := some 5000,
          isActive := true, isPaid := true }]) ∧
    webhookStatus .alreadyPaid = 400 ∧
    handleWebhook (fun s b => s ++ "." ++ b) "sk" (some "sk.body") "body"
      ⟨"charge.success", ⟨"r1", 500000, ⟨"fan@example.com"⟩⟩⟩ true true
      (handleWebhook (fun s b => s ++ "." ++ b) "sk" (some "sk.body") "body"
        ⟨"charge.success", ⟨"r1", 500000, ⟨"fan@example.com"⟩⟩⟩ true true
        [{ id := 1, email := some "fan@example.com", amount := some 5000,
           isActive := true, isPaid := true }]).2 =
      (.alreadyPaid,
       [{ id := 1, email := some "fan@example.com", amount := some 5000,
          isActive := true, isPaid := true }]) :=
  c1_already_paid_replay (fun s b => s ++ "." ++ b) "sk" (some "sk.body")
    "body" ⟨"charge.success", ⟨"r1", 500000, ⟨"fan@example.com"⟩⟩⟩ true
    [{ id := 1, email := some "fan@example.com", amount := some 5000,
       isActive := true, isPaid := true }]
    { id := 1, email := some "fan@example.com", amount := some 5000,
      isActive := true, isPaid := true } []
    (by decide) rfl
    (by
      have h : koboToBase 500000 = (5000 : ℚ) := by norm_num [koboToBase]
      simp [webhookMatches, h])
    rfl rfl

/-- Claim C2: a member whose isActive is false can never reach
isPaid = true.  Given unique row ids, any sequence of invocations of
the two confirmation paths leaves that member record exactly as it
was, and each path, when it resolves that member with a confirming
gateway outcome, answers the 400 inactive-membership error with no
state change. -/
theorem c2_inactive_never_paid (hmac : String → String → String)
    (secret : String) (store : List Member)
    (hnd : (store.map Member.id).Nodup) (i : Nat) (m : Member)
    (hf : getUser store i = some m) (hin : m.isActive = false) :
    (∀ acts : List Action, (∀ a ∈ acts, a.isReconcile = true) →
      getUser (runActions hmac secret acts store) i = some m) ∧
    (∀ (res : GatewayVerifyResult) (r : String) (updateOk : Bool),
      res.status = true → res.dataStatus = "success" → r ≠ "" → i ≠ 0 →
      verifyPayment (some res) (some r) (some i) true updateOk store =
        (.inactive, store)) ∧
    (∀ (sig : Option String) (body : String) (ev : WebhookEvent)
        (updateOk : Bool) (rest : List Member),
      verifyPaystackSignature hmac secret sig body = true →
      ev.event = "charge.success" →
      webhookMatches store ev.data.customer.email
        (koboToBase ev.data.amount) = m :: rest →
      handleWebhook hmac secret sig body ev true updateOk store =
        (.inactive, store)) := by
  refine ⟨?_, ?_, ?_⟩
  · intro acts hacts
    exact runActions_frozen hmac secret acts hacts store hnd i m hf hin
  · intro res r updateOk hs hds hr hi0
    unfold verifyPayment
    simp [hr, hi0, hs, hds, hf, hin]
  · intro sig body ev updateOk rest hsig hev hm
    unfold handleWebhook
    simp [hsig, hev, hm, hin]

theorem c2_inactive_never_paid_witness :
    getUser
      (runActions (fun s b => s ++ "." ++ b) "sk"
        [Action.verify (some ⟨true, "success"⟩) (some "r") (some 1) true true,
         Action.webhook (some "sk.body") "body"
           ⟨"charge.success", ⟨"r1", 500, ⟨"e@x.com"⟩⟩⟩ true true]
        [{ id := 1, email := some "e@x.com", amount := some 5,
           isActive := false }]) 1 =
      some { id := 1, email := some "e@x.com", amount := some 5,
             isActive := false } ∧
    verifyPayment (some ⟨true, "success"⟩) (some "r") (some 1) true true
      [{ id := 1, email := some "e@x.com", amount := some 5,
         isActive := false }] =
      (.inactive,
       [{ id := 1, email := some "e@x.com", amount := some 5,
          isActive := false }]) ∧
    handleWebhook (fun s b => s ++ "." ++ b) "sk" (some "sk.body") "body"
      ⟨"charge.success", ⟨"r1", 500, ⟨"e@x.com"⟩⟩⟩ true true
      [{ id := 1, email := some "e@x.com", amount := some 5,
         isActive := false }] =
      (.inactive,
       [{ id := 1, email := some "e@x.com", amount := some 5,
          isActive := false }]) := by
  have h := c2_inactive_never_paid (fun s b => s ++ "." ++ b) "sk"
    [{ id := 1, email := some "e@x.com", amount := some 5,
       isActive := false }] (by decide) 1
    { id := 1, email := some "e@x.com", amount := some 5,
      isActive := false } (by decide) rfl
  refine ⟨?_, ?_, ?_⟩
  · refine h.1 _ ?_
    intro a ha
    rcases List.mem_cons.mp ha with rfl | ha2
    · rfl
    · rcases List.mem_cons.mp ha2 with rfl | ha3
      · rfl
      · cases ha3
  · exact h.2.1 ⟨true, "success"⟩ "r" true rfl rfl (by decide) (by decide)
  · refine h.2.2 (some "sk.body") "body"
      ⟨"charge.success", ⟨"r1", 500, ⟨"e@x.com"⟩⟩⟩ true [] (by decide) rfl ?_
    have hq : koboToBase 500 = (5 : ℚ) := by norm_num [koboToBase]
    simp [webhookMatches, hq]

/-- Claim C3: isPaid is monotone.  Across any sequence of system
operations (registration, link issuance, verification, webhook,
lookup) a member once paid stays paid; and at every single step, the
member record found under an id either keeps its isPaid value or moves
it from false to true — no step resets it. -/
theorem c3_isPaid_monotone (hmac : String → String → String)
    (secret : String) (acts : List Action) (store : List Member)
    (i : Nat) (m : Member) (hf : getUser store i = some m)
    (hp : m.isPaid = true) :
    (∃ m2, getUser (runActions hmac secret acts store) i = some m2 ∧
      m2.isPaid = true) ∧
    (∀ (a : Action) (store2 : List Member) (j : Nat) (u u2 : Member),
      getUser store2 j = some u →
      getUser (applyAction hmac secret store2 a) j = some u2 →
      u2.isPaid = u.isPaid ∨ (u.isPaid = false ∧ u2.isPaid = true)) := by
  constructor
  · exact runActions_mono hmac secret acts store i m hf hp
  · intro a store2 j u u2 hu hu2
    rcases applyAction_shape hmac secret store2 a with h | ⟨k, h⟩ | ⟨x, h⟩
    · rw [h, hu] at hu2
      cases hu2
      exact Or.inl rfl
    · rw [h, getUser_setPaidById, hu] at hu2
      cases hu2
      unfold payUpd
      split
      · rcases hup : u.isPaid with _ | _
        · exact Or.inr ⟨rfl, rfl⟩
        · exact Or.inl (by simp [hup])
      · exact Or.inl rfl
    · rw [h, getUser_append_left [x] hu] at hu2
      cases hu2
      exact Or.inl rfl

theorem c3_isPaid_monotone_witness :
    (∃ m2, getUser
      (runActions (fun s b => s ++ "." ++ b) "sk"
        [Action.submit
          { nickname := some "n"
            tiktokHandle := some "t"
            badge := some "5000"
            nationality := some "ng" } true 2,
         Action.verify (some ⟨true, "success"⟩) (some "r") (some 1) true true,
         Action.details (some 1) true]
        [{ id := 1, isActive := true, isPaid := true }]) 1 =
      some m2 ∧ m2.isPaid = true) ∧
    (∀ (a : Action) (store2 : List Member) (j : Nat) (u u2 : Member),
      getUser store2 j = some u →
      getUser (applyAction (fun s b => s ++ "." ++ b) "sk" store2 a) j =
        some u2 →
      u2.isPaid = u.isPaid ∨ (u.isPaid = false ∧ u2.isPaid = true)) :=
  c3_isPaid_monotone (fun s b => s ++ "." ++ b) "sk"
    [Action.submit
      { nickname := some "n"
        tiktokHandle := some "t"
        badge := some "5000"
        nationality := some "ng" } true 2,
     Action.verify (some ⟨true, "success"⟩) (some "r") (some 1) true true,
     Action.details (some 1) true]
    [{ id := 1, isActive := true, isPaid := true }] 1
    { id := 1, isActive := true, isPaid := true } (by decide) rfl

/-- Claim C5: the minor-unit conversion round-trips.  For a base-unit
amount a accepted by the guard, the issuer sends exactly a*100 to the
gateway; the webhook divides a received minor-unit amount by 100, so
koboToBase (a*100) = a; and concretely a member stored with amount
5000 (badge "5000" parses to 5000) is matched by a correctly signed
successful-charge event carrying amount 500000 and the matching email,
which sets its isPaid to true. -/
theorem c5_minor_unit_roundtrip (a : ℚ) (ha : a ≠ 0) (u : JsValue)
    (hu : u.truthy = true) (cb : String) (now : Nat)
    (gw : Option GwInitResult) :
    ((generatePaymentLink u (.num a) cb now gw).2 =
        some (mkPaymentData u (.num a) cb now) ∧
      (mkPaymentData u (.num a) cb now).amount = some (a * 100)) ∧
    koboToBase (a * 100) = a ∧
    (jsParseInt (some "5000") = some 5000 ∧
     handleWebhook (fun s b => s ++ "." ++ b) "sk" (some "sk.body") "body"
       ⟨"charge.success", ⟨"r1", 500000, ⟨"fan@example.com"⟩⟩⟩ true true
       [{ id := 1, email := some "fan@example.com", amount := some 5000,
          isActive := true }] =
       (.confirmed,
        [{ id := 1, email := some "fan@example.com", amount := some 5000,
           isActive := true, isPaid := true }])) := by
  refine ⟨⟨?_, rfl⟩, ?_, by decide, ?_⟩
  · unfold generatePaymentLink
    have hg : (u.truthy && (JsValue.num a).truthy) = true := by
      rw [hu]
      simp [JsValue.truthy, ha]
    rw [hg]
    rcases gw with _ | r
    · simp
    · by_cases h2 : (r.ok && r.status && strTruthy r.authUrl) = true <;>
        simp [h2]
  · unfold koboToBase
    exact mul_div_cancel_right₀ a (by norm_num)
  · have h : koboToBase 500000 = (5000 : ℚ) := by norm_num [koboToBase]
    simp [handleWebhook, verifyPaystackSignature, webhookMatches, h,
      setPaidById, payUpd]

theorem c5_minor_unit_roundtrip_witness :
    ((generatePaymentLink (.num 1) (.num 5000) "cb" 1 none).2 =
        some (mkPaymentData (.num 1) (.num 5000) "cb" 1) ∧
      (mkPaymentData (.num 1) (.num 5000) "cb" 1).amount =
        some (5000 * 100)) ∧
    koboToBase (5000 * 100) = 5000 ∧
    (jsParseInt (some "5000") = some 5000 ∧
     handleWebhook (fun s b => s ++ "." ++ b) "sk" (some "sk.body") "body"
       ⟨"charge.success", ⟨"r1", 500000, ⟨"fan@example.com"⟩⟩⟩ true true
       [{ id := 1, email := some "fan@example.com", amount := some 5000,
          isActive := true }] =
       (.confirmed,
        [{ id := 1, email := some "fan@example.com", amount := some 5000,
           isActive := true, isPaid := true }])) :=
  c5_minor_unit_roundtrip 5000 (by norm_num) (.num 1)
    (by norm_num [JsValue.truthy]) "cb" 1 none

/-- Claim C7 counterexample: a submit-form request lacking fanSince but
carrying the four checked fields is not rejected: the handler inserts
the row and answers 201, so fanSince is not in fact required. -/
theorem c7_fansince_counterexample :
    submitForm
      { nickname := some "n"
        tiktokHandle := some "t"
        badge := some "5000"
        nationality := some "ng" } true 7 [] =
      (.created 7,
       [insertedMember
         { nickname := some "n"
           tiktokHandle := some "t"
           badge := some "5000"
           nationality := some "ng" } 7]) ∧
    submitStatus (.created 7) = 201 := by
  exact ⟨rfl, rfl⟩

/-- Claim C7 (amended): the required fields are nickname, tiktokHandle,
badge and nationality; fanSince is not checked and its absence does
not cause a 400.  When any checked field is missing or empty the
handler answers 400 and inserts nothing; with all four present it
answers 201 with the new row id on store success and 500 on store
failure. -/
theorem c7_required_fields (req : SubmitReq) (insertOk : Bool)
    (newId : Nat) (store : List Member) :
    (¬ (strTruthy req.nickname = true ∧ strTruthy req.tiktokHandle = true ∧
        strTruthy req.badge = true ∧ strTruthy req.nationality = true) →
      submitForm req insertOk newId store = (.missing, store) ∧
      submitStatus .missing = 400) ∧
    (strTruthy req.nickname = true → strTruthy req.tiktokHandle = true →
      strTruthy req.badge = true → strTruthy req.nationality = true →
      (insertOk = true →
        submitForm req insertOk newId store =
          (.created newId, store ++ [insertedMember req newId]) ∧
        submitStatus (.created newId) = 201) ∧
      (insertOk = false →
        submitForm req insertOk newId store = (.storeError, store) ∧
        submitStatus .storeError = 500)) := by
  constructor
  · intro hmiss
    refine ⟨?_, rfl⟩
    unfold submitForm
    have : (strTruthy req.nickname && strTruthy req.tiktokHandle &&
        strTruthy req.badge && strTruthy req.nationality) = false := by
      rcases h1 : strTruthy req.nickname <;>
        rcases h2 : strTruthy req.tiktokHandle <;>
        rcases h3 : strTruthy req.badge <;>
        rcases h4 : strTruthy req.nationality <;>
        simp_all
    rw [this]
    rfl
  · intro h1 h2 h3 h4
    constructor
    · intro hok
      refine ⟨?_, rfl⟩
      unfold submitForm
      rw [h1, h2, h3, h4, hok]
      rfl
    · intro hok
      refine ⟨?_, rfl⟩
      unfold submitForm
      rw [h1, h2, h3, h4, hok]
      rfl

theorem c7_required_fields_witness :
    (submitForm { nickname := some "n" } true 7 [] = (.missing, []) ∧
      submitStatus .missing = 400) ∧
    (submitForm
        { nickname := some "n"
          tiktokHandle := some "t"
          fanSince := some "2020"
          badge := some "5000"
          nationality := some "ng" } true 7 [] =
      (.created 7,
       [insertedMember
         { nickname := some "n"
           tiktokHandle := some "t"
           fanSince := some "2020"
           badge := some "5000"
           nationality := some "ng" } 7]) ∧
      submitStatus (.created 7) = 201) :=
  ⟨(c7_required_fields { nickname := some "n" } true 7 []).1
      (by simp [strTruthy]),
   ((c7_required_fields
        { nickname := some "n"
          tiktokHandle := some "t"
          fanSince := some "2020"
          badge := some "5000"
          nationality := some "ng" } true 7 []).2
      (by decide) (by decide) (by decide) (by decide)).1 rfl⟩

/-- Claim C9: when a successful-charge event matches more than one
stored member by email and converted amount, the handler applies the
isActive/isPaid checks and the isPaid transition to exactly the first
row of the query result: the response is decided by that row alone,
only its id can be updated, and every member stored under a different
id — in particular every other matching member, by uniqueness of ids —
keeps its record unchanged. -/
theorem c9_first_match_only (hmac : String → String → String)
    (secret : String) (sig : Option String) (body : String)
    (ev : WebhookEvent) (updateOk : Bool) (store : List Member)
    (u0 : Member) (rest : List Member)
    (hsig : verifyPaystackSignature hmac secret sig body = true)
    (hev : ev.event = "charge.success")
    (hm : webhookMatches store ev.data.customer.email
      (koboToBase ev.data.amount) = u0 :: rest)
    (hrest : rest ≠ [])
    (hnd : (store.map Member.id).Nodup) :
    (u0.isActive = false →
      handleWebhook hmac secret sig body ev true updateOk store =
        (.inactive, store)) ∧
    (u0.isActive = true → u0.isPaid = true →
      handleWebhook hmac secret sig body ev true updateOk store =
        (.alreadyPaid, store)) ∧
    (u0.isActive = true → u0.isPaid = false → updateOk = true →
      handleWebhook hmac secret sig body ev true updateOk store =
        (.confirmed, setPaidById store u0.id) ∧
      getUser (setPaidById store u0.id) u0.id =
        some { u0 with isPaid := true } ∧
      (∀ i, i ≠ u0.id →
        getUser (setPaidById store u0.id) i = getUser store i) ∧
      (∀ w ∈ rest, getUser (setPaidById store u0.id) w.id =
        getUser store w.id)) := by
  have hsub : (u0 :: rest).Sublist store := by
    rw [← hm]
    exact List.filter_sublist store
  have hndm : ((u0 :: rest).map Member.id).Nodup :=
    (hsub.map Member.id).nodup hnd
  have hu0 : u0 ∈ store := hsub.subset (List.mem_cons_self u0 rest)
  refine ⟨?_, ?_, ?_⟩
  · intro hact
    unfold handleWebhook
    simp [hsig, hev, hm, hact]
  · intro hact hpaid
    unfold handleWebhook
    simp [hsig, hev, hm, hact, hpaid]
  · intro hact hpaid hup
    refine ⟨?_, ?_, ?_, ?_⟩
    · unfold handleWebhook
      simp [hsig, hev, hm, hact, hpaid, hup]
    · have : getUser store u0.id = some u0 := getUser_of_nodup_mem hnd hu0
      rw [getUser_setPaidById, this]
      unfold payUpd
      simp
    · intro i hi
      rw [getUser_setPaidById]
      rcases hg : getUser store i with _ | w
      · rfl
      · have hw : w.id = i := getUser_id hg
        simp [payUpd_of_ne (by rw [hw]; exact hi)]
    · intro w hw
      have hwid : w.id ≠ u0.id := by
        intro he
        simp only [List.map_cons, List.nodup_cons] at hndm
        exact hndm.1 (he ▸ List.mem_map_of_mem Member.id hw)
      rw [getUser_setPaidById]
      rcases hg : getUser store w.id with _ | v
      · rfl
      · have hv : v.id = w.id := getUser_id hg
        simp [payUpd_of_ne (by rw [hv]; exact hwid)]

theorem c9_first_match_only_witness :
    handleWebhook (fun s b => s ++ "." ++ b) "sk" (some "sk.body") "body"
      ⟨"charge.success", ⟨"r1", 700, ⟨"d@x.com"⟩⟩⟩ true true
      [{ id := 1, email := some "d@x.com", amount := some 7, isActive := true },
       { id := 2, email := some "d@x.com", amount := some 7, isActive := true }] =
      (.confirmed,
       setPaidById
         [{ id := 1, email := some "d@x.com", amount := some 7, isActive := true },
          { id := 2, email := some "d@x.com", amount := some 7, isActive := true }] 1) ∧
    getUser
      (setPaidById
        [{ id := 1, email := some "d@x.com", amount := some 7, isActive := true },
         { id := 2, email := some "d@x.com", amount := some 7, isActive := true }] 1) 1 =
      some { id := 1, email := some "d@x.com", amount := some 7, isActive := true, isPaid := true } ∧
    getUser
      (setPaidById
        [{ id := 1, email := some "d@x.com", amount := some 7, isActive := true },
         { id := 2, email := some "d@x.com", amount := some 7, isActive := true }] 1) 2 =
      getUser
        [{ id := 1, email := some "d@x.com", amount := some 7, isActive := true },
         { id := 2, email := some "d@x.com", amount := some 7, isActive := true }] 2 := by
  have h := c9_first_match_only (fun s b => s ++ "." ++ b) "sk" (some "sk.body")
    "body" ⟨"charge.success", ⟨"r1", 700, ⟨"d@x.com"⟩⟩⟩ true
    [{ id := 1, email := some "d@x.com", amount := some 7, isActive := true },
     { id := 2, email := some "d@x.com", amount := some 7, isActive := true }]
    { id := 1, email := some "d@x.com", amount := some 7, isActive := true }
    [{ id := 2, email := some "d@x.com", amount := some 7, isActive := true }]
    (by decide) rfl
    (by
      have hq : koboToBase 700 = (7 : ℚ) := by norm_num [koboToBase]
      simp [webhookMatches, hq])
    (by decide) (by decide)
  obtain ⟨hconf, hupd, hoth, hrest2⟩ := h.2.2 rfl rfl rfl
  exact ⟨hconf, hupd, hoth 2 (by decide)⟩

end PellerServer

